import Mathlib

/-!
Verification development for the UAVSAR flight-planning application.

The first part models the Svelte/TypeScript frontend found under `src/`:
the `generateFlightPath` caller (`src/lib/stores/droneTypes.ts`), the
Svelte stores (`src/lib/stores/stores.ts`), the Sidebar drone-settings
form with its reactive validation, and the Map component's
polygon-drawing state machine.  TypeScript numbers are modelled as
rationals; the Tauri backend boundary (`invoke("generate_flightpath")`)
is a function parameter returning `Except`.

The second part models the planning engine itself, which lives behind
the Tauri command and is not part of the reviewed sources; those
definitions are modelled from the specification and are marked as such.
-/

namespace UAVSAR

/-- Geographic coordinate pair `[longitude, latitude]`, from
`export type Coordinate = [number, number]` in `stores.ts`. -/
abbrev Coordinate := ℚ × ℚ

/-- Camera coverage rectangle, from the `CoverageRect` interface in
`stores.ts` (`coords: Coordinate[][]`, `center: Coordinate`). -/
structure CoverageRect where
  coords : List (List Coordinate)
  center : Coordinate

/-- Drone profile, from the `Drone` interface in `stores.ts`. -/
structure Drone where
  model : String
  fov : ℚ
  altitude : ℚ
  overlap : ℚ
  speed : ℚ

/-- Waypoint, from the `Waypoint` interface in `stores.ts`. -/
structure Waypoint where
  coverage_rect : CoverageRect
  position : Coordinate
  bearing : ℚ
  altitude : ℚ

/-- Flight path result, from the `FlightPathResult` interface in
`stores.ts`. -/
structure FlightPathResult where
  waypoints : List Waypoint
  search_area : ℚ
  est_flight_time : ℚ

/-- Outcome of one `generateFlightPath` call in
`src/lib/stores/droneTypes.ts`: whether the `generate_flightpath`
backend command was invoked, and the value written to
`flightPathResultStore`. -/
structure GenOutcome where
  invoked : Bool
  store : Option FlightPathResult

/-- Model of `generateFlightPath` in `src/lib/stores/droneTypes.ts`.
The Tauri backend boundary is the parameter `backend`; `.ok` models a
resolved `invoke` promise, `.error` a rejected one.  When the polygon
store holds fewer than 3 coordinates the function writes `null` to
`flightPathResultStore` and returns without invoking the backend; when
the backend rejects, the `catch` branch writes `null`. -/
def generateFlightPathRun (area_coordinates : List Coordinate)
    (drone : Option Drone)
    (backend : List Coordinate → Option Drone → Except String FlightPathResult) :
    GenOutcome :=
  if area_coordinates.length < 3 then
    { invoked := false, store := none }
  else
    match backend area_coordinates drone with
    | .ok r => { invoked := true, store := some r }
    | .error _ => { invoked := true, store := none }

/-! Sidebar drone-settings form (the validated variant).  The constants
and the reactive validation block are modelled field by field. -/

/-- Constant `ALTITUDE = 100` of the Sidebar component. -/
def ALTITUDE : ℚ := 100

/-- Constant `OVERLAP = 55` of the Sidebar component. -/
def OVERLAP : ℚ := 55

/-- Constant `MIN_SPEED = 0.5` of the Sidebar component. -/
def MIN_SPEED : ℚ := mkRat 1 2

/-- Constant `MAX_SPEED = 15` of the Sidebar component. -/
def MAX_SPEED : ℚ := 15

/-- Constant `MIN_FOV = 10` of the Sidebar component. -/
def MIN_FOV : ℚ := 10

/-- Constant `MAX_FOV = 180` of the Sidebar component. -/
def MAX_FOV : ℚ := 180

/-- Whitespace test used to model the JavaScript `String.prototype.trim`
call on the model-name input. -/
def isSpace (c : Char) : Bool :=
  c = ' ' || c = '\t' || c = '\n' || c = '\r'

/-- Model of `droneModel.trim()`: leading and trailing whitespace
stripped from the character data of the string. -/
def trimmed (m : String) : List Char :=
  ((m.data.dropWhile isSpace).reverse.dropWhile isSpace).reverse

/-- Model-name validation of the Sidebar reactive block: `modelError`
stays empty exactly when the trimmed model name is non-empty and at
least 2 characters long. -/
def modelOk (m : String) : Bool :=
  decide (2 ≤ (trimmed m).length)

/-- Speed validation of the Sidebar reactive block.  The parsed value of
the speed input field is modelled as `Option ℚ` (`none` for an empty or
non-numeric field, mirroring `parseFloat` plus the `isNaN` check).  The
result is the reactive variable `droneSpeed`: `undefined` (`none`) when
any validation error fires, otherwise the parsed value. -/
def validatedSpeed : Option ℚ → Option ℚ
  | none => none
  | some s =>
    if s < MIN_SPEED then none
    else if MAX_SPEED < s then none
    else some s

/-- FOV validation of the Sidebar reactive block, mirroring
`validatedSpeed` with the `MIN_FOV`/`MAX_FOV` bounds. -/
def validatedFov : Option ℚ → Option ℚ
  | none => none
  | some f =>
    if f < MIN_FOV then none
    else if MAX_FOV < f then none
    else some f

/-- The `isSaveDisabled` reactive flag of the Sidebar: disabled when the
model name fails validation or either numeric field is left undefined by
its validation. -/
def isSaveDisabled (m : String) (speedInput fovInput : Option ℚ) : Bool :=
  !modelOk m || (validatedSpeed speedInput).isNone || (validatedFov fovInput).isNone

/-- Overall acceptance of the Sidebar validation layer: the Save button
is enabled and `saveDroneSettings` will write a profile. -/
def validationAccepts (m : String) (speedInput fovInput : Option ℚ) : Bool :=
  !isSaveDisabled m speedInput fovInput

/-- Model of `saveDroneSettings` (validated Sidebar variant): given the
form inputs and the previous `droneStore` contents, returns the new
store contents.  The guard returns early when `isSaveDisabled`, leaving
the store unchanged; otherwise the validated values are written together
with the compile-time `ALTITUDE` and `OVERLAP` constants. -/
def saveDroneSettings (m : String) (speedInput fovInput : Option ℚ)
    (store : Option Drone) : Option Drone :=
  if isSaveDisabled m speedInput fovInput then store
  else
    match validatedSpeed speedInput, validatedFov fovInput with
    | some s, some f =>
        some { model := ⟨trimmed m⟩, fov := f, altitude := ALTITUDE,
               overlap := OVERLAP, speed := s }
    | _, _ => store

/-- Model of the earlier Sidebar variant's `saveDroneSettings`: no
validation, the `parseFloat` results are written directly, together with
the same `ALTITUDE` and `OVERLAP` constants. -/
def saveDroneSettingsSimple (m : String) (speed fov : ℚ) : Drone :=
  { model := m, fov := fov, altitude := ALTITUDE, overlap := OVERLAP,
    speed := speed }

/-- Acceptance predicate exactly as the specification words it: field of
view strictly inside (0,180) degrees, positive speed and altitude,
overlap fraction below 100. -/
def specProfileAccepted (fov altitude overlap speed : ℚ) : Prop :=
  0 < fov ∧ fov < 180 ∧ 0 < altitude ∧ 0 < speed ∧ overlap < 100

instance (fov altitude overlap speed : ℚ) :
    Decidable (specProfileAccepted fov altitude overlap speed) := by
  unfold specProfileAccepted; infer_instance

/-! Map component: polygon drawing state machine. -/

/-- State of the Map component: the local `area_coordinates` array, the
two Svelte stores it writes, the ring held by the `drawn-polygon`
GeoJSON source, and the drag-selection state. -/
structure MapState where
  area_coordinates : List Coordinate
  areaCoordsStore : List Coordinate
  flightPathResult : Option FlightPathResult
  drawnPolygon : List Coordinate
  isDragging : Bool
  selectedPointId : Option Nat

/-- Display-only ring closure,
`area_coordinates.concat([area_coordinates[0]])`, as built when the
`drawn-polygon` source is updated.  On the empty list the update is
modelled as the empty ring. -/
def closeRing : List Coordinate → List Coordinate
  | [] => []
  | h :: t => (h :: t) ++ [h]

/-- User-interface events handled by the Map component, plus pressing
the Generate Flightpath button (which calls `generateFlightPath` with
the current store contents).  `mousedownOnPoint i` is a mousedown on the
rendered vertex feature with id `i`; feature ids are always indices of
`area_coordinates`, which the bound check in `step` reflects. -/
inductive MapEvent where
  | dblclick (p : Coordinate)
  | mousedownOnPoint (i : Nat)
  | mousemove (p : Coordinate)
  | mouseup
  | resetArea
  | generate (drone : Option Drone)
      (backend : List Coordinate → Option Drone → Except String FlightPathResult)

/-- Initial Map component state: empty array, empty stores, empty
sources, no drag in progress. -/
def initialState : MapState :=
  { area_coordinates := [], areaCoordsStore := [], flightPathResult := none,
    drawnPolygon := [], isDragging := false, selectedPointId := none }

/-- One event step of the Map component.  `dblclick` pushes the clicked
point and refreshes store and polygon source; `mousemove` during a drag
replaces the selected vertex; `resetArea` clears the array, both stores
and the sources (leaving the drag flags untouched, as the handler
does). -/
def step (s : MapState) : MapEvent → MapState
  | .dblclick p =>
    let coords := s.area_coordinates ++ [p]
    { s with area_coordinates := coords, areaCoordsStore := coords,
             drawnPolygon := closeRing coords }
  | .mousedownOnPoint i =>
    if i < s.area_coordinates.length then
      { s with isDragging := true, selectedPointId := some i }
    else s
  | .mousemove p =>
    match s.isDragging, s.selectedPointId with
    | true, some i =>
      let coords := s.area_coordinates.set i p
      { s with area_coordinates := coords, areaCoordsStore := coords,
               drawnPolygon := closeRing coords }
    | _, _ => s
  | .mouseup =>
    if s.isDragging then { s with isDragging := false, selectedPointId := none }
    else s
  | .resetArea =>
    { s with area_coordinates := [], areaCoordsStore := [],
             flightPathResult := none, drawnPolygon := [] }
  | .generate drone backend =>
    { s with flightPathResult :=
        (generateFlightPathRun s.areaCoordsStore drone backend).store }

/-- Run the Map component from its initial state over a sequence of
events. -/
def runMap (events : List MapEvent) : MapState :=
  events.foldl step initialState

/-- Invariant relating the Svelte store, the raw vertex array and the
rendered ring of the Map component. -/
def MapInv (s : MapState) : Prop :=
  s.areaCoordsStore = s.area_coordinates ∧
  s.drawnPolygon = closeRing s.area_coordinates

/-! The planning engine.  The engine itself runs behind the
`generate_flightpath` Tauri command; its own source is not part of the
reviewed frontend sources, so everything below is modelled from the
specification (geographic projector, footprint calculator, scan-line
clipper, path assembler, coverage and metrics builder, validation) over
the real numbers. -/

/-- Planar point in the local metric frame of the engine. -/
abbrev PlanarPoint := ℝ × ℝ

/-- Modelled from the spec: degree-to-radian conversion used by the
footprint calculator and the projector. -/
noncomputable def toRadians (deg : ℝ) : ℝ := deg * Real.pi / 180

/-- Modelled from the spec: `computeFootprint(fieldOfView, altitude)`,
the pinhole-camera ground footprint `2 * altitude * tan(fov / 2)` with
the angle converted to radians. -/
noncomputable def computeFootprint (fieldOfView altitude : ℝ) : ℝ :=
  2 * altitude * Real.tan (toRadians fieldOfView / 2)

/-- Modelled from the spec: `computeLineSpacing(footprint, overlap)`,
`footprint * (1 - overlapFraction / 100)`. -/
noncomputable def computeLineSpacing (footprint overlapFraction : ℝ) : ℝ :=
  footprint * (1 - overlapFraction / 100)

/-- Cross-product term of two consecutive polygon vertices, the summand
of the planar shoelace formula. -/
noncomputable def crossTerm (p q : PlanarPoint) : ℝ := p.1 * q.2 - q.1 * p.2

/-- Sum of the cross terms over consecutive vertex pairs of an open
vertex chain (without the closing edge). -/
noncomputable def openSum : List PlanarPoint → ℝ
  | p :: q :: t => crossTerm p q + openSum (q :: t)
  | _ => 0

/-- Shoelace ring sum of a polygon: the open-chain sum plus the closing
edge from the last vertex back to the first. -/
noncomputable def ringSum (l : List PlanarPoint) : ℝ :=
  openSum l + crossTerm (l.getLastD (0, 0)) (l.headD (0, 0))

/-- Modelled from the spec: `computeSearchArea(planarPolygon)`, the
planar shoelace area in square meters converted to square kilometers.
It is a function of the polygon alone, independent of any path
geometry. -/
noncomputable def computeSearchArea (l : List PlanarPoint) : ℝ :=
  |ringSum l| / 2 / 1000000

/-- Modelled from the spec: planar Euclidean distance between two
waypoint positions. -/
noncomputable def planarDistance (p q : PlanarPoint) : ℝ :=
  Real.sqrt ((q.1 - p.1) ^ 2 + (q.2 - p.2) ^ 2)

/-- Total planar path length: sum of Euclidean distances between
consecutive waypoints, each leg counted exactly once. -/
noncomputable def pathLength : List PlanarPoint → ℝ
  | p :: q :: t => planarDistance p q + pathLength (q :: t)
  | _ => 0

/-- Modelled from the spec: `computeFlightTime(waypoints, speed)`, the
total path length divided by the speed in m/s, converted from seconds to
minutes. -/
noncomputable def computeFlightTime (waypoints : List PlanarPoint)
    (speed : ℝ) : ℝ :=
  pathLength waypoints / speed / 60

/-- Modelled from the spec: meters per degree of latitude in the
equirectangular local approximation (Earth radius 6371 km). -/
noncomputable def metersPerDegree : ℝ := Real.pi / 180 * 6371000

/-- Modelled from the spec: `toPlanar(geoPoint, referenceLatitude)`; one
degree of longitude is scaled by the cosine of the reference latitude,
one degree of latitude by a constant linear scale. -/
noncomputable def toPlanar (geo : ℝ × ℝ) (referenceLatitude : ℝ) :
    PlanarPoint :=
  (geo.1 * Real.cos (toRadians referenceLatitude) * metersPerDegree,
   geo.2 * metersPerDegree)

/-- Modelled from the spec: `toGeographic(planarPoint, referenceLatitude)`,
the inverse scaling of `toPlanar`. -/
noncomputable def toGeographic (p : PlanarPoint) (referenceLatitude : ℝ) :
    ℝ × ℝ :=
  (p.1 / (Real.cos (toRadians referenceLatitude) * metersPerDegree),
   p.2 / metersPerDegree)

/-- Edge list of a closed polygon ring: each vertex paired with its
successor, the last paired with the first. -/
def ringEdges (l : List PlanarPoint) : List (PlanarPoint × PlanarPoint) :=
  match l with
  | [] => []
  | h :: t => (h :: t).zip (t ++ [h])

open Classical in
/-- Modelled from the spec: crossing of one polygon edge with the
horizontal sweep line at height `y` (standard scanline edge-crossing
test with half-open vertical intervals). -/
noncomputable def edgeCrossing (p q : PlanarPoint) (y : ℝ) : List ℝ :=
  if (p.2 ≤ y ∧ y < q.2) ∨ (q.2 ≤ y ∧ y < p.2) then
    [p.1 + (y - p.2) * (q.1 - p.1) / (q.2 - p.2)]
  else []

/-- All crossings of the polygon boundary with the sweep line at `y`. -/
noncomputable def lineCrossings (poly : List PlanarPoint) (y : ℝ) : List ℝ :=
  ((ringEdges poly).map (fun e => edgeCrossing e.1 e.2 y)).flatten

open Classical in
/-- Ascending sort of crossing abscissas. -/
noncomputable def sortReals (xs : List ℝ) : List ℝ :=
  xs.mergeSort (fun a b => decide (a ≤ b))

/-- Consecutive pairing of sorted crossings into in-polygon intervals
(even-odd rule); disjoint intervals stay separate segments. -/
def pairUp : List ℝ → List (ℝ × ℝ)
  | a :: b :: t => (a, b) :: pairUp t
  | _ => []

/-- Covered segments of the sweep line at `y`: each in-polygon interval
becomes one directed segment on the line. -/
noncomputable def segmentsOnLine (poly : List PlanarPoint) (y : ℝ) :
    List (PlanarPoint × PlanarPoint) :=
  (pairUp (sortReals (lineCrossings poly y))).map
    (fun ab => ((ab.1, y), (ab.2, y)))

/-- Modelled from the spec: sweep-line heights covering the polygon's
vertical extent at `spacing` intervals, the first offset by `spacing/2`
from the lower boundary.  (The rotating-calipers orientation selector is
abstracted to an axis-aligned sweep; no verified claim depends on the
chosen orientation.) -/
noncomputable def sweepLines (poly : List PlanarPoint) (spacing : ℝ) :
    List ℝ :=
  let ys := poly.map Prod.snd
  let yMin := ys.foldr min (ys.headD 0)
  let yMax := ys.foldr max (ys.headD 0)
  (List.range ⌈(yMax - yMin) / spacing⌉₊).map
    (fun i => yMin + spacing / 2 + i * spacing)

/-- Boustrophedon direction: segments of every other line are walked
right-to-left, with endpoints swapped, so consecutive lines connect at
adjacent ends. -/
def orientedLine (i : ℕ) (segs : List (PlanarPoint × PlanarPoint)) :
    List (PlanarPoint × PlanarPoint) :=
  if i % 2 = 0 then segs else (segs.map (fun ab => (ab.2, ab.1))).reverse

/-- Modelled from the spec: the ordered covered segments of all sweep
lines, directions alternated line by line. -/
noncomputable def coveredSegments (poly : List PlanarPoint) (spacing : ℝ) :
    List (PlanarPoint × PlanarPoint) :=
  ((sweepLines poly spacing).enum.map
    (fun iy => orientedLine iy.1 (segmentsOnLine poly iy.2))).flatten

/-- Each segment contributes its two endpoints as waypoints, in flight
order. -/
def segmentWaypoints (segs : List (PlanarPoint × PlanarPoint)) :
    List PlanarPoint :=
  segs.foldr (fun ab acc => ab.1 :: ab.2 :: acc) []

/-- Modelled from the spec: travel bearing from `p` to `q` in degrees
clockwise from north, normalized to [0, 360). -/
noncomputable def bearingOf (p q : PlanarPoint) : ℝ :=
  let theta :=
    (Real.pi / 2 - Complex.arg ⟨q.1 - p.1, q.2 - p.2⟩) * 180 / Real.pi
  theta - 360 * (⌊theta / 360⌋ : ℝ)

/-- Bearings along a waypoint chain: each waypoint carries the direction
of travel to the next, the final waypoint repeats the preceding leg's
heading. -/
noncomputable def bearingsAux : PlanarPoint → List PlanarPoint → ℝ → List ℝ
  | p, q :: t, _ => bearingOf p q :: bearingsAux q t (bearingOf p q)
  | _, [], prev => [prev]

/-- Bearings of the whole waypoint sequence. -/
noncomputable def bearingsOf : List PlanarPoint → List ℝ
  | [] => []
  | p :: t => bearingsAux p t 0

/-- Modelled from the spec: `buildCoverageRect`, a square of side
`footprint` centered at the waypoint, rotated to the bearing, returned
as a closed corner ring together with its centroid. -/
noncomputable def buildCoverageRect (c : PlanarPoint)
    (bearingDeg footprint : ℝ) : List PlanarPoint × PlanarPoint :=
  let a := toRadians bearingDeg
  let h := footprint / 2
  let u : PlanarPoint := (Real.sin a, Real.cos a)
  let v : PlanarPoint := (Real.cos a, -Real.sin a)
  ([(c.1 + h * (u.1 + v.1), c.2 + h * (u.2 + v.2)),
    (c.1 + h * (u.1 - v.1), c.2 + h * (u.2 - v.2)),
    (c.1 - h * (u.1 + v.1), c.2 - h * (u.2 + v.2)),
    (c.1 - h * (u.1 - v.1), c.2 - h * (u.2 - v.2)),
    (c.1 + h * (u.1 + v.1), c.2 + h * (u.2 + v.2))], c)

/-- Drone profile consumed by the engine, as the specification's data
model words it. -/
structure DroneProfile where
  model : String
  fieldOfView : ℝ
  altitude : ℝ
  overlapFraction : ℝ
  speed : ℝ

/-- Typed failures of the engine, from the specification's error
taxonomy. -/
inductive PlanError where
  | invalidParameter
  | degeneratePolygon
  | emptyPath

/-- Geographic waypoint emitted by the engine. -/
structure GeoWaypoint where
  position : ℝ × ℝ
  bearing : ℝ
  altitude : ℝ
  coverageRect : List (ℝ × ℝ)
  coverageCenter : ℝ × ℝ

/-- Successful flight-path result of the engine. -/
structure PlanSuccess where
  waypoints : List GeoWaypoint
  searchArea : ℝ
  estimatedFlightTime : ℝ

open Classical in
/-- Modelled from the spec: the whole planning engine as one pure
function of polygon and drone profile — validation, projection into the
planar frame, footprint and spacing, scan-line clipping, boustrophedon
assembly, metrics, projection back to geographic coordinates.  It has no
state: every call computes its result from the arguments alone. -/
noncomputable def plan (coords : List (ℝ × ℝ)) (drone : DroneProfile) :
    Except PlanError PlanSuccess :=
  if drone.fieldOfView ≤ 0 ∨ 180 ≤ drone.fieldOfView ∨ drone.altitude ≤ 0 ∨
      100 ≤ drone.overlapFraction ∨ drone.speed ≤ 0 then
    .error .invalidParameter
  else
    let refLat := (coords.map Prod.snd).sum / (coords.length : ℝ)
    let planar := coords.map (fun g => toPlanar g refLat)
    if coords.length < 3 ∨ ringSum planar = 0 then .error .degeneratePolygon
    else
      let footprint := computeFootprint drone.fieldOfView drone.altitude
      let spacing := computeLineSpacing footprint drone.overlapFraction
      let segs := coveredSegments planar spacing
      if segs = [] then .error .emptyPath
      else
        let wps := segmentWaypoints segs
        let brs := bearingsOf wps
        let geoWps := (wps.zip brs).map (fun wb =>
          let rect := buildCoverageRect wb.1 wb.2 footprint
          { position := toGeographic wb.1 refLat
            bearing := wb.2
            altitude := drone.altitude
            coverageRect := rect.1.map (fun r => toGeographic r refLat)
            coverageCenter := toGeographic rect.2 refLat : GeoWaypoint })
        .ok { waypoints := geoWps
              searchArea := computeSearchArea planar
              estimatedFlightTime := computeFlightTime wps drone.speed }

/-! Theorems about the caller (`generateFlightPath`). -/

/-- C1: for every call of `generateFlightPath` in which the polygon
store holds fewer than 3 coordinates, the planner backend is never
invoked and the flight-path result is set to the no-area value `none`;
the caller treats this as no area defined rather than an engine
error. -/
theorem C1_no_area_short_polygon (area_coordinates : List Coordinate)
    (drone : Option Drone)
    (backend : List Coordinate → Option Drone → Except String FlightPathResult)
    (h : area_coordinates.length < 3) :
    generateFlightPathRun area_coordinates drone backend =
      { invoked := false, store := none } := by
  simp [generateFlightPathRun, h]

theorem C1_no_area_short_polygon_witness :
    ([((0 : ℚ), (0 : ℚ)), (1, 1)] : List Coordinate).length < 3 ∧
    generateFlightPathRun ([((0 : ℚ), (0 : ℚ)), (1, 1)] : List Coordinate) none
        (fun _ _ => .error "unused") =
      { invoked := false, store := none } :=
  ⟨by decide,
   C1_no_area_short_polygon ([((0 : ℚ), (0 : ℚ)), (1, 1)] : List Coordinate) none
     (fun _ _ => .error "unused") (by decide)⟩

/-- C3: when the backend is invoked (3 or more coordinates), a failed
invocation leaves no partial result: the `catch` branch writes `none` to
the store; a successful invocation with result `r` writes `some r`, so a
failure is never converted into a value indistinguishable from a
legitimate (possibly empty) result. -/
theorem C3_failure_clears_store (area_coordinates : List Coordinate)
    (drone : Option Drone)
    (backend : List Coordinate → Option Drone → Except String FlightPathResult)
    (hlen : 3 ≤ area_coordinates.length) :
    (∀ e, backend area_coordinates drone = .error e →
      generateFlightPathRun area_coordinates drone backend =
        { invoked := true, store := none }) ∧
    (∀ r, backend area_coordinates drone = .ok r →
      generateFlightPathRun area_coordinates drone backend =
        { invoked := true, store := some r }) := by
  have hni : ¬ area_coordinates.length < 3 := by omega
  constructor
  · intro e he
    simp [generateFlightPathRun, hni, he]
  · intro r hr
    simp [generateFlightPathRun, hni, hr]

theorem C3_failure_clears_store_witness :
    3 ≤ ([((0 : ℚ), (0 : ℚ)), (0, 1), (1, 0)] : List Coordinate).length ∧
    generateFlightPathRun ([((0 : ℚ), (0 : ℚ)), (0, 1), (1, 0)] : List Coordinate)
        none (fun _ _ => .error "planner failed") =
      { invoked := true, store := none } :=
  ⟨by decide,
   (C3_failure_clears_store ([((0 : ℚ), (0 : ℚ)), (0, 1), (1, 0)] : List Coordinate)
      none (fun _ _ => .error "planner failed") (by decide)).1
     "planner failed" rfl⟩

/-! Theorems about the Map component state machine. -/

theorem mapInv_step {s : MapState} (e : MapEvent) (h : MapInv s) :
    MapInv (step s e) := by
  obtain ⟨h1, h2⟩ := h
  cases e with
  | dblclick p => exact ⟨rfl, rfl⟩
  | mousedownOnPoint i =>
    by_cases hi : i < s.area_coordinates.length <;>
      simp [step, hi, MapInv, h1, h2]
  | mousemove p =>
    rcases hd : s.isDragging <;> rcases hs : s.selectedPointId with _ | i <;>
      simp [step, hd, hs, MapInv, h1, h2]
  | mouseup =>
    by_cases hd : s.isDragging <;> simp [step, hd, MapInv, h1, h2]
  | resetArea => exact ⟨rfl, rfl⟩
  | generate drone backend => exact ⟨h1, by simpa [step] using h2⟩

theorem mapInv_foldl (events : List MapEvent) (s : MapState) (h : MapInv s) :
    MapInv (events.foldl step s) := by
  induction events generalizing s with
  | nil => exact h
  | cons e es ih => exact ih _ (mapInv_step e h)

theorem dblclick_foldl (ps : List Coordinate) (s : MapState) :
    ((ps.map MapEvent.dblclick).foldl step s).area_coordinates =
      s.area_coordinates ++ ps := by
  induction ps generalizing s with
  | nil => simp
  | cons p ps ih =>
    simp only [List.map_cons, List.foldl_cons, step]
    rw [ih]
    simp

/-- C4: in every reachable state of the Map component, the coordinate
store handed to the planner equals the raw user vertex array (a trace of
double-clicks yields exactly the clicked points in order, never with the
first point re-appended); the closing point appears only in the
`drawn-polygon` rendering source, produced by `closeRing` from the
store. -/
theorem C4_store_is_user_vertices (events : List MapEvent)
    (ps : List Coordinate) :
    (runMap (ps.map MapEvent.dblclick)).areaCoordsStore = ps ∧
    (runMap events).areaCoordsStore = (runMap events).area_coordinates ∧
    (runMap events).drawnPolygon =
      closeRing ((runMap events).areaCoordsStore) := by
  have hinit : MapInv initialState := ⟨rfl, rfl⟩
  have h1 := mapInv_foldl (ps.map MapEvent.dblclick) initialState hinit
  have h2 := mapInv_foldl events initialState hinit
  refine ⟨?_, h2.1, ?_⟩
  · simp only [runMap] at h1 ⊢
    rw [h1.1, dblclick_foldl]
    rfl
  · show (List.foldl step initialState events).drawnPolygon =
      closeRing (List.foldl step initialState events).areaCoordsStore
    rw [h2.2, h2.1]

/-- C10: pressing Reset Area at any point clears the polygon store and
the flight-path result (as well as the local array and the rendered
ring), discarding any previously planned path and its metrics. -/
theorem C10_reset_clears (events : List MapEvent) :
    (runMap (events ++ [MapEvent.resetArea])).areaCoordsStore = [] ∧
    (runMap (events ++ [MapEvent.resetArea])).area_coordinates = [] ∧
    (runMap (events ++ [MapEvent.resetArea])).flightPathResult = none ∧
    (runMap (events ++ [MapEvent.resetArea])).drawnPolygon = [] := by
  simp [runMap, List.foldl_append, step]

/-! Theorems about the Sidebar validation and save handler. -/

/-- C2 counterexample: the Sidebar validation accepts a profile with
field of view exactly 180 degrees although 180 lies outside (0,180), and
rejects FOV 5 degrees and speed 0.3 m/s although both satisfy the
claimed acceptance predicate. -/
theorem C2_counterexample :
    (validationAccepts "DJI Mavic 3" (some 10) (some 180) = true ∧
      ¬ specProfileAccepted 180 ALTITUDE OVERLAP 10) ∧
    (specProfileAccepted 5 ALTITUDE OVERLAP 10 ∧
      validationAccepts "DJI Mavic 3" (some 10) (some 5) = false) ∧
    (specProfileAccepted 60 ALTITUDE OVERLAP (mkRat 3 10) ∧
      validationAccepts "DJI Mavic 3" (some (mkRat 3 10)) (some 60) = false) := by
  decide

/-- C2 amended: the Sidebar validation layer accepts a profile iff the
trimmed model name has at least 2 characters, the speed lies within
[0.5, 15] m/s and the field of view lies within [10, 180] degrees;
altitude and overlap are the compile-time constants 100 and 55 and are
never validated. -/
theorem C2_amended_validation (m : String) (s f : ℚ) :
    (validationAccepts m (some s) (some f) = true ↔
      2 ≤ (trimmed m).length ∧ MIN_SPEED ≤ s ∧ s ≤ MAX_SPEED ∧
        MIN_FOV ≤ f ∧ f ≤ MAX_FOV) ∧
    ALTITUDE = 100 ∧ OVERLAP = 55 := by
  refine ⟨?_, rfl, rfl⟩
  simp only [validationAccepts, isSaveDisabled, modelOk, validatedSpeed,
    validatedFov, Bool.not_eq_true']
  constructor
  · intro h
    split_ifs at h <;> simp_all
  · intro ⟨hm, h1, h2, h3, h4⟩
    have e1 : ¬ s < MIN_SPEED := not_lt.mpr h1
    have e2 : ¬ MAX_SPEED < s := not_lt.mpr h2
    have e3 : ¬ f < MIN_FOV := not_lt.mpr h3
    have e4 : ¬ MAX_FOV < f := not_lt.mpr h4
    simp [e1, e2, e3, e4, hm]

/-- C9: every drone profile written by the Sidebar save handler carries
altitude exactly 100 meters and overlap exactly 55 percent (the
compile-time constants); only the model name, speed and field of view
come from user input, and the earlier unvalidated save handler hard-wires
the same two constants. -/
theorem C9_saved_profile_constants (m : String) (speedInput fovInput : Option ℚ)
    (store : Option Drone)
    (h : isSaveDisabled m speedInput fovInput = false) :
    (∃ s f, validatedSpeed speedInput = some s ∧ validatedFov fovInput = some f ∧
      saveDroneSettings m speedInput fovInput store =
        some { model := ⟨trimmed m⟩, fov := f, altitude := 100, overlap := 55,
               speed := s }) ∧
    ∀ m2 sp fv, (saveDroneSettingsSimple m2 sp fv).altitude = 100 ∧
      (saveDroneSettingsSimple m2 sp fv).overlap = 55 := by
  constructor
  · simp only [isSaveDisabled, Bool.or_eq_false_iff, Bool.not_eq_true',
      Option.isNone_eq_false_iff, Option.isSome_iff_exists] at h
    obtain ⟨⟨hm, s, hs⟩, f, hf⟩ := h
    refine ⟨s, f, hs, hf, ?_⟩
    have hdis : isSaveDisabled m speedInput fovInput = false := by
      simp [isSaveDisabled, hm, hs, hf]
    simp [saveDroneSettings, hdis, hs, hf, ALTITUDE, OVERLAP]
  · intro m2 sp fv
    exact ⟨rfl, rfl⟩

/-! Shoelace lemmas for the search-area invariance. -/

theorem crossTerm_swap (p q : PlanarPoint) : crossTerm q p = -crossTerm p q := by
  simp only [crossTerm]
  ring

theorem openSum_cons_cons (p q : PlanarPoint) (t : List PlanarPoint) :
    openSum (p :: q :: t) = crossTerm p q + openSum (q :: t) := rfl

theorem openSum_concat (t : List PlanarPoint) (p a : PlanarPoint) :
    openSum ((p :: t) ++ [a]) =
      openSum (p :: t) + crossTerm (t.getLastD p) a := by
  induction t generalizing p with
  | nil => simp [openSum_cons_cons, openSum]
  | cons q t2 ih =>
    have hq := ih q
    simp only [List.cons_append] at hq ⊢
    rw [openSum_cons_cons, hq, openSum_cons_cons, List.getLastD_cons]
    ring

theorem openSum_concat2 (xs : List PlanarPoint) (a : PlanarPoint)
    (h : xs ≠ []) :
    openSum (xs ++ [a]) = openSum xs + crossTerm (xs.getLastD (0, 0)) a := by
  cases xs with
  | nil => exact absurd rfl h
  | cons p t => rw [openSum_concat, List.getLastD_cons]

theorem ringSum_rotate_one (h : PlanarPoint) (t : List PlanarPoint) :
    ringSum (t ++ [h]) = ringSum (h :: t) := by
  cases t with
  | nil => rfl
  | cons q t2 =>
    have ho := openSum_concat t2 q h
    simp only [List.cons_append] at ho
    simp only [ringSum, List.getLastD_concat, List.cons_append,
      List.headD_cons, openSum_cons_cons, List.getLastD_cons]
    rw [ho]
    ring

theorem ringSum_rotate (l : List PlanarPoint) (n : ℕ) :
    ringSum (l.rotate n) = ringSum l := by
  induction n generalizing l with
  | zero => rw [List.rotate_zero]
  | succ n ih =>
    cases l with
    | nil => simp [List.rotate_nil]
    | cons h t => rw [List.rotate_cons_succ, ih, ringSum_rotate_one]

theorem openSum_reverse (l : List PlanarPoint) :
    openSum l.reverse = -openSum l := by
  induction l with
  | nil => simp [openSum]
  | cons p t ih =>
    cases t with
    | nil => simp [openSum]
    | cons q t2 =>
      have hne : (q :: t2).reverse ≠ [] := by simp
      calc openSum ((p :: q :: t2).reverse)
          = openSum ((q :: t2).reverse ++ [p]) := by rw [List.reverse_cons]
        _ = openSum ((q :: t2).reverse) +
              crossTerm (((q :: t2).reverse).getLastD (0, 0)) p :=
            openSum_concat2 _ _ hne
        _ = -openSum (q :: t2) + crossTerm q p := by
            rw [ih]
            simp [List.getLastD_eq_getLast?, List.getLast?_reverse]
        _ = -openSum (p :: q :: t2) := by
            rw [openSum_cons_cons, crossTerm_swap]
            ring

theorem ringSum_reverse (l : List PlanarPoint) :
    ringSum l.reverse = -ringSum l := by
  simp only [ringSum, openSum_reverse, List.getLastD_eq_getLast?,
    List.headD_eq_head?_getD, List.getLast?_reverse, List.head?_reverse]
  simp only [crossTerm]
  ring

/-- C7: the computed search area is invariant under cyclic rotation of
the polygon's vertex list starting point and under reversal of its
winding order; it is a function of the input polygon alone
(`computeSearchArea` takes no path data), so it is independent of the
generated path geometry. -/
theorem C7_search_area_invariance (l : List PlanarPoint) (n : ℕ) :
    computeSearchArea (l.rotate n) = computeSearchArea l ∧
    computeSearchArea l.reverse = computeSearchArea l := by
  constructor
  · rw [computeSearchArea, computeSearchArea, ringSum_rotate]
  · rw [computeSearchArea, computeSearchArea, ringSum_reverse, abs_neg]

/-! Footprint calculator bounds. -/

theorem sqrt3_upper : Real.sqrt 3 < 1.7325 := by
  nlinarith [Real.sq_sqrt (show (0 : ℝ) ≤ 3 by norm_num), Real.sqrt_nonneg 3,
    sq_nonneg (Real.sqrt 3 - 1.7325)]

theorem sqrt3_lower : (1.731 : ℝ) < Real.sqrt 3 := by
  nlinarith [Real.sq_sqrt (show (0 : ℝ) ≤ 3 by norm_num), Real.sqrt_nonneg 3,
    sq_nonneg (Real.sqrt 3 - 1.731)]

/-- C5: `computeFootprint` is the pinhole-camera relation
`2 * altitude * tan(fieldOfView / 2)` with the angle in radians,
`computeLineSpacing` is `footprint * (1 - overlapFraction / 100)`, and
for FOV 60 degrees, altitude 100 m, overlap 50 the footprint is within
0.1 m of 115.5 m and the spacing within 0.1 m of 57.75 m. -/
theorem C5_footprint_and_spacing :
    (∀ fov alt : ℝ, computeFootprint fov alt =
      2 * alt * Real.tan (fov * Real.pi / 180 / 2)) ∧
    (∀ fp ov : ℝ, computeLineSpacing fp ov = fp * (1 - ov / 100)) ∧
    |computeFootprint 60 100 - 115.5| < 1 / 10 ∧
    |computeLineSpacing (computeFootprint 60 100) 50 - 57.75| < 1 / 10 := by
  have harg : toRadians 60 / 2 = Real.pi / 6 := by
    unfold toRadians; ring
  have hpos : 0 < Real.sqrt 3 := Real.sqrt_pos.mpr (by norm_num)
  have hfp : computeFootprint 60 100 = 200 / Real.sqrt 3 := by
    rw [computeFootprint, harg, Real.tan_pi_div_six]
    ring
  have hsp : computeLineSpacing (computeFootprint 60 100) 50 =
      100 / Real.sqrt 3 := by
    rw [computeLineSpacing, hfp]
    ring
  have hub := sqrt3_upper
  have hlb := sqrt3_lower
  refine ⟨fun fov alt => rfl, fun fp ov => rfl, ?_, ?_⟩
  · have hxs : 200 / Real.sqrt 3 * Real.sqrt 3 = 200 :=
      div_mul_cancel₀ 200 (ne_of_gt hpos)
    have hxpos : 0 < 200 / Real.sqrt 3 := by positivity
    rw [hfp, abs_lt]
    constructor <;> nlinarith [hxs, hxpos, hub, hlb]
  · have hxs : 100 / Real.sqrt 3 * Real.sqrt 3 = 100 :=
      div_mul_cancel₀ 100 (ne_of_gt hpos)
    have hxpos : 0 < 100 / Real.sqrt 3 := by positivity
    rw [hsp, abs_lt]
    constructor <;> nlinarith [hxs, hxpos, hub, hlb]

/-- C6: the estimated flight time is the sum of planar Euclidean
distances between consecutive emitted waypoints, divided by the speed
and converted from seconds to minutes, each leg counted exactly once;
consequently doubling the speed exactly halves the estimate for fixed
path geometry. -/
theorem C6_flight_time_scaling (waypoints : List PlanarPoint) (speed : ℝ)
    (_hpos : 0 < speed) :
    computeFlightTime waypoints speed = pathLength waypoints / speed / 60 ∧
    (∀ p q t, pathLength (p :: q :: t) =
      planarDistance p q + pathLength (q :: t)) ∧
    computeFlightTime waypoints (2 * speed) =
      computeFlightTime waypoints speed / 2 := by
  refine ⟨rfl, fun p q t => rfl, ?_⟩
  unfold computeFlightTime
  simp only [div_div]
  rw [show 2 * speed * 60 = speed * 60 * 2 by ring]

theorem C6_flight_time_scaling_witness :
    (0 : ℝ) < 10 ∧
    (computeFlightTime [((0 : ℝ), (0 : ℝ)), (3, 4)] 10 =
        pathLength [((0 : ℝ), (0 : ℝ)), (3, 4)] / 10 / 60 ∧
      (∀ p q t, pathLength (p :: q :: t) =
        planarDistance p q + pathLength (q :: t)) ∧
      computeFlightTime [((0 : ℝ), (0 : ℝ)), (3, 4)] (2 * 10) =
        computeFlightTime [((0 : ℝ), (0 : ℝ)), (3, 4)] 10 / 2) :=
  ⟨by norm_num,
   C6_flight_time_scaling [((0 : ℝ), (0 : ℝ)), (3, 4)] 10 (by norm_num)⟩

/-- C8: the planner is a pure, deterministic function of its inputs —
any two calls with identical polygon coordinates and identical drone
profile produce identical results (waypoints, bearings, search area and
flight time alike), there being no state shared between calls. -/
theorem C8_planner_deterministic (coords1 coords2 : List (ℝ × ℝ))
    (drone1 drone2 : DroneProfile)
    (hc : coords1 = coords2) (hd : drone1 = drone2) :
    plan coords1 drone1 = plan coords2 drone2 := by
  rw [hc, hd]

theorem C8_planner_deterministic_witness :
    ([((0 : ℝ), (0 : ℝ)), (0, 1), (1, 0)] : List (ℝ × ℝ)) =
      ([((0 : ℝ), (0 : ℝ)), (0, 1), (1, 0)] : List (ℝ × ℝ)) ∧
    plan ([((0 : ℝ), (0 : ℝ)), (0, 1), (1, 0)] : List (ℝ × ℝ))
        { model := "Test", fieldOfView := 60, altitude := 100,
          overlapFraction := 55, speed := 10 } =
      plan ([((0 : ℝ), (0 : ℝ)), (0, 1), (1, 0)] : List (ℝ × ℝ))
        { model := "Test", fieldOfView := 60, altitude := 100,
          overlapFraction := 55, speed := 10 } :=
  ⟨rfl,
   C8_planner_deterministic _ _ _ _ rfl rfl⟩

theorem C9_saved_profile_constants_witness :
    isSaveDisabled "DJI Mavic 3" (some 10) (some 84) = false ∧
    ((∃ s f, validatedSpeed (some 10) = some s ∧ validatedFov (some 84) = some f ∧
      saveDroneSettings "DJI Mavic 3" (some 10) (some 84) none =
        some { model := ⟨trimmed "DJI Mavic 3"⟩, fov := f, altitude := 100,
               overlap := 55, speed := s }) ∧
    ∀ m2 sp fv, (saveDroneSettingsSimple m2 sp fv).altitude = 100 ∧
      (saveDroneSettingsSimple m2 sp fv).overlap = 55) :=
  ⟨by decide,
   C9_saved_profile_constants "DJI Mavic 3" (some 10) (some 84) none (by decide)⟩

end UAVSAR
